import Mathlib

/-!
Shallow embedding of the `Bond` class from `src/bond_price_val.ipynb`.

Real-number arithmetic of the Python source is modelled over `ℚ` (exact
arithmetic).  Python exceptions are modelled by `Except PyError`:
`ValueError` raised for missing constructor arguments (the spec calls it
`ConfigurationError`), `ZeroDivisionError` for a zero divisor reached
during the straight-line numeric computations, and a convergence failure
of the external root finder.  `scipy.optimize.newton` is external library
code, not part of this repository, so `Bond.init` is parameterised by the
solver it would call.
-/

/-- Errors a `Bond` method can raise.  `valueError` carries the message of
the Python `ValueError`; the spec names this case `ConfigurationError`. -/
inductive PyError where
  | valueError : String → PyError
  | zeroDivisionError : PyError
  | convergenceError : PyError
  deriving DecidableEq, Repr

/-- Python `int()` applied to a rational: truncation toward zero. -/
def pyInt (q : ℚ) : ℤ := if 0 ≤ q then ⌊q⌋ else -⌊-q⌋

/-- Present value of the coupon stream: the loop
`sum(coupon_payment / (1+per_rate)**i for i in range(1, total_periods+1))`
of `_calculate_price_from_ytm`, with `per_rate = y / terms`.
Index `i` of the source runs 1..n; here `i` runs over `Finset.range n.toNat`
so the source's `i` is `i + 1`. -/
def pvCoupons (cp terms : ℚ) (n : ℤ) (y : ℚ) : ℚ :=
  ∑ i in Finset.range n.toNat, cp / (1 + y / terms) ^ (i + 1)

/-- Body of `Bond._calculate_price_from_ytm`: discounted coupons plus the
discounted redemption `par / (1+per_rate)**total_periods`.  The redemption
exponent is the integer `total_periods` (zpow, as Python `**` on a
possibly negative int). -/
def priceCalc (cp terms : ℚ) (n : ℤ) (par y : ℚ) : ℚ :=
  pvCoupons cp terms n y + par / (1 + y / terms) ^ n

/-- Body of the nested `ytm_equation` inside `_calculate_ytm_from_price`:
present value of all cash flows at the guessed yield, minus the target
price. -/
def ytmEquation (cp terms : ℚ) (n : ℤ) (par target guess : ℚ) : ℚ :=
  priceCalc cp terms n par guess - target

/-- Body of `Bond._calculate_macaulay_duration`: time-weighted present
values of coupons (`t = i / terms_per_year` years), plus
`maturity * par / (1+per_rate)**total_periods`, divided by the stored
price. -/
def macCalc (cp terms : ℚ) (n : ℤ) (mat par y priceVal : ℚ) : ℚ :=
  ((∑ i in Finset.range n.toNat,
      (((i : ℚ) + 1) / terms) * cp / (1 + y / terms) ^ (i + 1)) +
    mat * par / (1 + y / terms) ^ n) / priceVal

/-- Body of `Bond._calculate_modified_duration`:
`macaulay_duration / (1 + ytm_annual / terms_per_year)`. -/
def modCalc (terms y macVal : ℚ) : ℚ := macVal / (1 + y / terms)

/-- Body of `Bond._calculate_convexity`: the weighted sum
`i*(i+1)*coupon_payment / (1+per_rate)**(i+2)` for `i` in 1..n, plus
`n*(n+1)*par / (1+per_rate)**(n+2)`, divided by
`price * terms_per_year**2`. -/
def convCalc (cp terms : ℚ) (n : ℤ) (par y priceVal : ℚ) : ℚ :=
  ((∑ i in Finset.range n.toNat,
      ((i : ℚ) + 1) * (((i : ℚ) + 1) + 1) * cp / (1 + y / terms) ^ (i + 1 + 2)) +
    (n : ℚ) * ((n : ℚ) + 1) * par / (1 + y / terms) ^ (n + 2)) /
  (priceVal * terms ^ 2)

/-- The state of a constructed `Bond` object: the attributes assigned by
`Bond.__init__`. -/
structure Bond where
  coupon_rate : ℚ
  maturity : ℚ
  par : ℚ
  terms_per_year : ℚ
  init_guess : ℚ
  coupon_payment : ℚ
  total_periods : ℤ
  ytm_annual : ℚ
  price : ℚ
  macaulay_duration : ℚ
  modified_duration : ℚ
  convexity : ℚ
  deriving DecidableEq, Repr

/-- Method `_calculate_price_from_ytm` reading the fixed terms off `self`. -/
def Bond.calculate_price_from_ytm (b : Bond) (ytm_annual : ℚ) : ℚ :=
  priceCalc b.coupon_payment b.terms_per_year b.total_periods b.par ytm_annual

/-- Method `_calculate_macaulay_duration` reading `self`. -/
def Bond.calculate_macaulay_duration (b : Bond) : ℚ :=
  macCalc b.coupon_payment b.terms_per_year b.total_periods b.maturity b.par
    b.ytm_annual b.price

/-- Method `_calculate_modified_duration` reading `self`. -/
def Bond.calculate_modified_duration (b : Bond) : ℚ :=
  modCalc b.terms_per_year b.ytm_annual b.macaulay_duration

/-- Method `_calculate_convexity` reading `self`. -/
def Bond.calculate_convexity (b : Bond) : ℚ :=
  convCalc b.coupon_payment b.terms_per_year b.total_periods b.par
    b.ytm_annual b.price

/-- Tail of `Bond.__init__` once `ytm_annual` is known: store the price
(the given one verbatim when supplied, else `_calculate_price_from_ytm`),
then precompute the three risk metrics.  The sequential attribute
assignments of the source are substituted: each later computation reads
the fields already assigned.  Guards model the `ZeroDivisionError` Python
raises on this path: a zero per-period factor `1 + y/terms` is hit by
`_calculate_modified_duration` (and by the discounting powers when
`total_periods` is nonzero), and a zero stored price is hit by the final
division of `_calculate_macaulay_duration`. -/
def initDerive (cr mat pr terms ig cp : ℚ) (n : ℤ) (y : ℚ)
    (priceOpt : Option ℚ) : Except PyError Bond :=
  if 1 + y / terms = 0 then Except.error PyError.zeroDivisionError
  else if priceOpt.getD (priceCalc cp terms n pr y) = 0 then
    Except.error PyError.zeroDivisionError
  else Except.ok
    { coupon_rate := cr
      maturity := mat
      par := pr
      terms_per_year := terms
      init_guess := ig
      coupon_payment := cp
      total_periods := n
      ytm_annual := y
      price := priceOpt.getD (priceCalc cp terms n pr y)
      macaulay_duration :=
        macCalc cp terms n mat pr y (priceOpt.getD (priceCalc cp terms n pr y))
      modified_duration :=
        modCalc terms y
          (macCalc cp terms n mat pr y (priceOpt.getD (priceCalc cp terms n pr y)))
      convexity :=
        convCalc cp terms n pr y (priceOpt.getD (priceCalc cp terms n pr y)) }

/-- `Bond.__init__`.  `newtonSolve` stands for `scipy.optimize.newton`
(external library code): it receives the `ytm_equation` closure and the
initial guess, and either returns the solved yield or fails.  The checks
appear in source order: missing required arguments raise `ValueError`;
`coupon_payment = coupon_rate * par / terms_per_year` raises
`ZeroDivisionError` when `terms_per_year = 0`; then missing ytm and price
raise `ValueError`; `total_periods = int(maturity * terms_per_year)`. -/
def Bond.init (newtonSolve : (ℚ → ℚ) → ℚ → Except PyError ℚ)
    (coupon_rate ytm maturity par price : Option ℚ)
    (terms_per_year init_guess : ℚ) : Except PyError Bond :=
  match coupon_rate, par, maturity with
  | some cr, some pr, some mat =>
    if terms_per_year = 0 then Except.error PyError.zeroDivisionError
    else
      match ytm, price with
      | none, none =>
        Except.error (PyError.valueError ("Either ytm or price must be provided."))
      | some y, priceOpt =>
        initDerive cr mat pr terms_per_year init_guess
          (cr * pr / terms_per_year) (pyInt (mat * terms_per_year)) y priceOpt
      | none, some p =>
        match newtonSolve
            (ytmEquation (cr * pr / terms_per_year) terms_per_year
              (pyInt (mat * terms_per_year)) pr p) init_guess with
        | Except.error e => Except.error e
        | Except.ok y =>
          initDerive cr mat pr terms_per_year init_guess
            (cr * pr / terms_per_year) (pyInt (mat * terms_per_year)) y (some p)
  | _, _, _ =>
    Except.error
      (PyError.valueError ("coupon_rate, par, and maturity must be provided."))

/-- Method `set_ytm`: store the new yield, recompute price, Macaulay and
modified duration, and convexity.  The sequential assignments are
substituted as in `initDerive`; the guards model the `ZeroDivisionError`
this path can raise (`terms_per_year = 0` at `per_rate`, a zero per-period
factor, a zero recomputed price). -/
def Bond.set_ytm (b : Bond) (new_ytm : ℚ) : Except PyError Bond :=
  if b.terms_per_year = 0 then Except.error PyError.zeroDivisionError
  else if 1 + new_ytm / b.terms_per_year = 0 then
    Except.error PyError.zeroDivisionError
  else if priceCalc b.coupon_payment b.terms_per_year b.total_periods b.par new_ytm = 0 then
    Except.error PyError.zeroDivisionError
  else Except.ok
    { b with
      ytm_annual := new_ytm
      price := priceCalc b.coupon_payment b.terms_per_year b.total_periods b.par new_ytm
      macaulay_duration :=
        macCalc b.coupon_payment b.terms_per_year b.total_periods b.maturity b.par
          new_ytm
          (priceCalc b.coupon_payment b.terms_per_year b.total_periods b.par new_ytm)
      modified_duration :=
        modCalc b.terms_per_year new_ytm
          (macCalc b.coupon_payment b.terms_per_year b.total_periods b.maturity b.par
            new_ytm
            (priceCalc b.coupon_payment b.terms_per_year b.total_periods b.par new_ytm))
      convexity :=
        convCalc b.coupon_payment b.terms_per_year b.total_periods b.par new_ytm
          (priceCalc b.coupon_payment b.terms_per_year b.total_periods b.par new_ytm) }

/-- Method `dv01`: bump the yield by `bp / 10000`, reprice at the bumped
yield, and return `new_price - self.price`.  No attribute is assigned, so
the post-state returned alongside the value is `self` unchanged.  The
reprice raises `ZeroDivisionError` exactly when the bumped per-period
factor is zero and `total_periods` is nonzero. -/
def Bond.dv01 (b : Bond) (bp : ℚ) : Except PyError (ℚ × Bond) :=
  if b.terms_per_year = 0 then Except.error PyError.zeroDivisionError
  else if 1 + (b.ytm_annual + bp / 10000) / b.terms_per_year = 0 ∧ b.total_periods ≠ 0 then
    Except.error PyError.zeroDivisionError
  else Except.ok
    (b.calculate_price_from_ytm (b.ytm_annual + bp / 10000) - b.price, b)

/-- A stand-in for `scipy.optimize.newton` usable on code paths that never
call it: it just returns the initial guess. -/
def newtonStub : (ℚ → ℚ) → ℚ → Except PyError ℚ := fun _ g => Except.ok g

/-- Value returned by a successful `dv01` call (0 on error). -/
def dv01Val (b : Bond) (bp : ℚ) : ℚ :=
  match b.dv01 bp with
  | Except.ok (v, _) => v
  | Except.error _ => 0

/-- The bond record `initDerive` builds when neither of its guards fires:
all twelve attributes as `__init__` leaves them. -/
def mkBond (cr mat pr terms ig cp : ℚ) (n : ℤ) (y : ℚ)
    (priceOpt : Option ℚ) : Bond :=
  { coupon_rate := cr
    maturity := mat
    par := pr
    terms_per_year := terms
    init_guess := ig
    coupon_payment := cp
    total_periods := n
    ytm_annual := y
    price := priceOpt.getD (priceCalc cp terms n pr y)
    macaulay_duration :=
      macCalc cp terms n mat pr y (priceOpt.getD (priceCalc cp terms n pr y))
    modified_duration :=
      modCalc terms y
        (macCalc cp terms n mat pr y (priceOpt.getD (priceCalc cp terms n pr y)))
    convexity :=
      convCalc cp terms n pr y (priceOpt.getD (priceCalc cp terms n pr y)) }

/-- A bond built by yield-driven construction, used to instantiate several
theorems at a concrete input: coupon 9%, yield 9%, one year to maturity,
par 100, semiannual coupons; its fields are exactly those `Bond.__init__`
computes for `Bond(0.09, 0.09, 1, 100)`. -/
def parBond1 : Bond :=
  mkBond (9/100) 1 100 2 (1/20) (9/100 * 100 / 2) (pyInt (1 * 2)) (9/100) none

/-- The bond `q2BondB = Bond(0.09, 0.08, 2, 100, 100)` of the notebook:
both a yield and a price are supplied at construction, and the explicit
price 100 is the one stored. -/
def q2B : Bond :=
  mkBond (9/100) 2 100 2 (1/20) (9/100 * 100 / 2) (pyInt (2 * 2)) (2/25)
    (some 100)

/-- The state `Bond.__init__` computes for a bond whose par value is the
negative number -1. -/
def negParBond : Bond :=
  mkBond (9/100) 1 (-1) 2 (1/20) (9/100 * (-1) / 2) (pyInt (1 * 2)) (9/100) none

/-- With the three required fields and a yield present, `Bond.__init__`
reduces to its derived-field computation. -/
lemma init_ytm_eq (solver : (ℚ → ℚ) → ℚ → Except PyError ℚ)
    (cr y mat pr terms ig : ℚ) (priceOpt : Option ℚ) (hterms : terms ≠ 0) :
    Bond.init solver (some cr) (some y) (some mat) (some pr) priceOpt terms ig
      = initDerive cr mat pr terms ig (cr * pr / terms) (pyInt (mat * terms)) y
          priceOpt := by
  cases priceOpt <;> simp [Bond.init, if_neg hterms]

/-- When neither guard of the derived-field computation fires, it returns
the fully populated bond. -/
lemma initDerive_ok (cr mat pr terms ig cp : ℚ) (n : ℤ) (y : ℚ)
    (priceOpt : Option ℚ) (hx : 1 + y / terms ≠ 0)
    (hp : priceOpt.getD (priceCalc cp terms n pr y) ≠ 0) :
    initDerive cr mat pr terms ig cp n y priceOpt
      = Except.ok (mkBond cr mat pr terms ig cp n y priceOpt) := by
  rw [initDerive, if_neg hx, if_neg hp]
  rfl

/-- Truncation of a value in `[0, 1)` is zero. -/
lemma pyInt_eq_zero (q : ℚ) (h0 : 0 ≤ q) (h1 : q < 1) : pyInt q = 0 := by
  rw [pyInt, if_pos h0, Int.floor_eq_zero_iff]
  exact ⟨h0, h1⟩

/-- Truncation of a nonnegative value is nonnegative. -/
lemma pyInt_nonneg (q : ℚ) (h0 : 0 ≤ q) : 0 ≤ pyInt q := by
  rw [pyInt, if_pos h0]
  exact Int.floor_nonneg.mpr h0

/-- Geometric identity behind the par-bond property: when every coupon is
`r * pr` and the per-period rate is `r`, the discounted coupons and the
discounted redemption always sum to `pr`. -/
lemma couponGeom (r pr : ℚ) (hx : 1 + r ≠ 0) (m : ℕ) :
    (∑ i in Finset.range m, r * pr / (1 + r) ^ (i + 1)) + pr / (1 + r) ^ m
      = pr := by
  induction m with
  | zero => simp
  | succ k ih =>
    rw [Finset.sum_range_succ]
    have key : r * pr / (1 + r) ^ (k + 1) + pr / (1 + r) ^ (k + 1)
        = pr / (1 + r) ^ k := by
      rw [div_add_div_same, pow_succ]
      rw [div_eq_div_iff (by positivity) (pow_ne_zero _ hx)]
      ring
    linear_combination ih + key

/-- Evaluation: two half-year periods in one year. -/
lemma pyInt_one_mul_two : pyInt (1 * 2) = 2 := by norm_num [pyInt]

/-- Evaluation: four half-year periods in two years. -/
lemma pyInt_two_mul_two : pyInt (2 * 2) = 4 := by norm_num [pyInt]

/-- Evaluation of the price-from-yield formula at the terms of `q2B` and
its stored yield 0.08: the exact value is not the stored price 100. -/
lemma priceCalc_q2B :
    priceCalc (9/100 * 100 / 2) 2 (pyInt (2 * 2)) 100 (2/25)
      = 93053975/913952 := by
  rw [pyInt_two_mul_two, priceCalc, pvCoupons, show ((4:ℤ).toNat) = 4 from rfl,
    Finset.sum_range_succ, Finset.sum_range_succ, Finset.sum_range_succ,
    Finset.sum_range_succ, Finset.sum_range_zero]
  norm_num

/-- Evaluation: `parBond1` is a par bond, its computed price is 100. -/
lemma priceCalc_parBond1 :
    priceCalc (9/100 * 100 / 2) 2 (pyInt (1 * 2)) 100 (9/100) = 100 := by
  rw [pyInt_one_mul_two, priceCalc, pvCoupons, show ((2:ℤ).toNat) = 2 from rfl,
    Finset.sum_range_succ, Finset.sum_range_succ, Finset.sum_range_zero]
  norm_num

/-- Evaluation: the computed price of the negative-par bond. -/
lemma priceCalc_negPar :
    priceCalc (9/100 * (-1) / 2) 2 (pyInt (1 * 2)) (-1) (9/100) = -1 := by
  rw [pyInt_one_mul_two, priceCalc, pvCoupons, show ((2:ℤ).toNat) = 2 from rfl,
    Finset.sum_range_succ, Finset.sum_range_succ, Finset.sum_range_zero]
  norm_num

/-- Construction of `parBond1` succeeds and yields exactly that record. -/
lemma parBond1_init :
    Bond.init newtonStub (some (9/100)) (some (9/100)) (some 1) (some 100)
      none 2 (1/20) = Except.ok parBond1 := by
  rw [init_ytm_eq newtonStub (9/100) (9/100) 1 100 2 (1/20) none (by norm_num),
    initDerive_ok (9/100) 1 100 2 (1/20) (9/100 * 100 / 2) (pyInt (1 * 2))
      (9/100) none (by norm_num)
      (by rw [Option.getD_none, priceCalc_parBond1]; norm_num)]
  rfl

/-- Construction of `q2B` (both yield and price supplied) succeeds and
yields exactly that record. -/
lemma q2B_init :
    Bond.init newtonStub (some (9/100)) (some (2/25)) (some 2) (some 100)
      (some 100) 2 (1/20) = Except.ok q2B := by
  rw [init_ytm_eq newtonStub (9/100) (2/25) 2 100 2 (1/20) (some 100)
      (by norm_num),
    initDerive_ok (9/100) 2 100 2 (1/20) (9/100 * 100 / 2) (pyInt (2 * 2))
      (2/25) (some 100) (by norm_num) (by rw [Option.getD_some]; norm_num)]
  rfl

/-- Construction of the negative-par bond succeeds. -/
lemma negParBond_init :
    Bond.init newtonStub (some (9/100)) (some (9/100)) (some 1) (some (-1))
      none 2 (1/20) = Except.ok negParBond := by
  rw [init_ytm_eq newtonStub (9/100) (9/100) 1 (-1) 2 (1/20) none (by norm_num),
    initDerive_ok (9/100) 1 (-1) 2 (1/20) (9/100 * (-1) / 2) (pyInt (1 * 2))
      (9/100) none (by norm_num)
      (by rw [Option.getD_none, priceCalc_negPar]; norm_num)]
  rfl

/-- Claim C1, counterexample.  The notebook bond
`Bond(0.09, 0.08, 2, 100, 100)` is constructed with both a yield and a
price; the stored price is the supplied 100 and the stored yield is 0.08,
but the price-from-yield formula at that yield gives a different value:
the explicitly supplied price is preserved verbatim, not recomputed. -/
theorem spec_C1_counterexample :
    Bond.init newtonStub (some (9/100)) (some (2/25)) (some 2) (some 100)
        (some 100) 2 (1/20) = Except.ok q2B ∧
      q2B.ytm_annual = 2/25 ∧ q2B.price = 100 ∧
      q2B.calculate_price_from_ytm (2/25) ≠ 100 := by
  refine ⟨q2B_init, rfl, rfl, ?_⟩
  show priceCalc (9/100 * 100 / 2) 2 (pyInt (2 * 2)) 100 (2/25) ≠ 100
  rw [priceCalc_q2B]
  norm_num

/-- Claim C1, amended: when both `yield_annual` and `price` are supplied,
the constructor stores the yield as given and stores the explicitly
supplied price verbatim; it does not recompute the price from the
yield. -/
theorem spec_C1_amended (solver : (ℚ → ℚ) → ℚ → Except PyError ℚ)
    (cr y mat pr p terms ig : ℚ) (hterms : terms ≠ 0)
    (hx : 1 + y / terms ≠ 0) (hp : p ≠ 0) :
    (Bond.init solver (some cr) (some y) (some mat) (some pr) (some p) terms
        ig).map (fun b => (b.ytm_annual, b.price)) = Except.ok (y, p) := by
  rw [init_ytm_eq solver cr y mat pr terms ig (some p) hterms,
    initDerive_ok cr mat pr terms ig (cr * pr / terms) (pyInt (mat * terms)) y
      (some p) hx (by rw [Option.getD_some]; exact hp)]
  rfl

/-- Claim C1 amended, witness at the notebook's `q2BondB` input. -/
theorem spec_C1_amended_witness :
    (Bond.init newtonStub (some (9/100)) (some (2/25)) (some 2) (some 100)
        (some 100) 2 (1/20)).map (fun b => (b.ytm_annual, b.price))
      = Except.ok (2/25, 100) :=
  spec_C1_amended newtonStub (9/100) (2/25) 2 100 100 2 (1/20) (by norm_num)
    (by norm_num) (by norm_num)

/-- Claim C2, counterexample.  A state constructed from a valid input
combination (both yield and price supplied, the notebook's
`Bond(0.09, 0.08, 2, 100, 100)`) in which the stored price does not equal
the price-from-yield formula at the stored yield. -/
theorem spec_C2_counterexample :
    Bond.init newtonStub (some (9/100)) (some (2/25)) (some 2) (some 100)
        (some 100) 2 (1/20) = Except.ok q2B ∧
      q2B.price ≠ q2B.calculate_price_from_ytm q2B.ytm_annual := by
  refine ⟨q2B_init, ?_⟩
  show (100 : ℚ) ≠ priceCalc (9/100 * 100 / 2) 2 (pyInt (2 * 2)) 100 (2/25)
  rw [priceCalc_q2B]
  norm_num

/-- Claim C2, amended: after a construction in which `price` was not
supplied, and after any successful `set_ytm`, the stored price equals the
price-from-yield formula at the stored yield; a state constructed with an
explicit price keeps that price verbatim and may be inconsistent with the
stored yield. -/
theorem spec_C2_amended :
    (∀ (solver : (ℚ → ℚ) → ℚ → Except PyError ℚ) (cr y mat pr terms ig : ℚ)
        (b : Bond),
        Bond.init solver (some cr) (some y) (some mat) (some pr) none terms ig
          = Except.ok b →
        b.price = b.calculate_price_from_ytm b.ytm_annual) ∧
    (∀ (b b' : Bond) (y : ℚ), b.set_ytm y = Except.ok b' →
        b'.price = b'.calculate_price_from_ytm b'.ytm_annual) := by
  constructor
  · intro solver cr y mat pr terms ig b h
    by_cases hterms : terms = 0
    · subst hterms
      simp [Bond.init] at h
    · rw [init_ytm_eq solver cr y mat pr terms ig none hterms, initDerive] at h
      split_ifs at h
      injection h with h
      subst h
      rfl
  · intro b b' y h
    rw [Bond.set_ytm] at h
    split_ifs at h
    injection h with h
    subst h
    rfl

/-- Claim C2 amended, witness: the yield-constructed bond `parBond1` has
its stored price equal to the price-from-yield formula at its stored
yield. -/
theorem spec_C2_amended_witness :
    parBond1.price = parBond1.calculate_price_from_ytm parBond1.ytm_annual :=
  spec_C2_amended.1 newtonStub (9/100) (9/100) 1 100 2 (1/20) parBond1
    parBond1_init

/-- Claim C3, counterexample.  `par = -1 <= 0`, yet construction succeeds
with no error of any kind: the constructor performs no positivity
validation of `par`, `maturity`, or `periods_per_year`. -/
theorem spec_C3_counterexample :
    ((-1 : ℚ) ≤ 0) ∧
      Bond.init newtonStub (some (9/100)) (some (9/100)) (some 1) (some (-1))
        none 2 (1/20) = Except.ok negParBond :=
  ⟨by norm_num, negParBond_init⟩

/-- Claim C3, amended: the constructor performs no positivity validation.
First, even when `par <= 0`, or `maturity <= 0`, or `periods_per_year < 0`,
construction completes without a `ConfigurationError`.  Second, a zero
`periods_per_year` raises `ZeroDivisionError` (at the `coupon_payment`
division), not `ConfigurationError`.  Third, `ConfigurationError`
(`ValueError`) arises only from missing arguments: whenever construction
fails with a `ValueError`, either a required field was absent, or both
yield and price were absent, or the error is one the external root finder
itself returned on the price-only path. -/
theorem spec_C3_amended :
    (∀ (solver : (ℚ → ℚ) → ℚ → Except PyError ℚ) (cr y mat pr terms ig : ℚ),
        (pr ≤ 0 ∨ mat ≤ 0 ∨ terms < 0) → terms ≠ 0 → 1 + y / terms ≠ 0 →
        priceCalc (cr * pr / terms) terms (pyInt (mat * terms)) pr y ≠ 0 →
        (Bond.init solver (some cr) (some y) (some mat) (some pr) none terms
            ig).map (fun _ => ()) = Except.ok ()) ∧
    (∀ (solver : (ℚ → ℚ) → ℚ → Except PyError ℚ) (cr mat pr : ℚ)
        (ytmo po : Option ℚ) (ig : ℚ),
        Bond.init solver (some cr) ytmo (some mat) (some pr) po 0 ig
          = Except.error PyError.zeroDivisionError) ∧
    (∀ (solver : (ℚ → ℚ) → ℚ → Except PyError ℚ)
        (cro ytmo mato pro po : Option ℚ) (terms ig : ℚ) (msg : String),
        Bond.init solver cro ytmo mato pro po terms ig
          = Except.error (PyError.valueError msg) →
        (cro = none ∨ pro = none ∨ mato = none) ∨
        (ytmo = none ∧ po = none) ∨
        (∃ cr pr mat p, cro = some cr ∧ pro = some pr ∧ mato = some mat ∧
          ytmo = none ∧ po = some p ∧
          solver (ytmEquation (cr * pr / terms) terms (pyInt (mat * terms))
            pr p) ig = Except.error (PyError.valueError msg))) := by
  refine ⟨?_, ?_, ?_⟩
  · intro solver cr y mat pr terms ig _hviol hterms hx hp
    rw [init_ytm_eq solver cr y mat pr terms ig none hterms,
      initDerive_ok cr mat pr terms ig (cr * pr / terms) (pyInt (mat * terms))
        y none hx (by rw [Option.getD_none]; exact hp)]
    rfl
  · intro solver cr mat pr ytmo po ig
    simp [Bond.init]
  · intro solver cro ytmo mato pro po terms ig msg h
    rcases cro with _ | cr
    · exact Or.inl (Or.inl rfl)
    rcases pro with _ | pr
    · exact Or.inl (Or.inr (Or.inl rfl))
    rcases mato with _ | mat
    · exact Or.inl (Or.inr (Or.inr rfl))
    by_cases hterms : terms = 0
    · subst hterms
      simp [Bond.init] at h
    rcases ytmo with _ | y
    · rcases po with _ | p
      · exact Or.inr (Or.inl ⟨rfl, rfl⟩)
      · cases hs : solver (ytmEquation (cr * pr / terms) terms
            (pyInt (mat * terms)) pr p) ig with
        | error e =>
          have he : Bond.init solver (some cr) none (some mat) (some pr)
              (some p) terms ig = Except.error e := by
            simp [Bond.init, if_neg hterms, hs]
          rw [he] at h
          injection h with h
          refine Or.inr (Or.inr ⟨cr, pr, mat, p, rfl, rfl, rfl, rfl, rfl, ?_⟩)
          rw [hs, h]
        | ok y =>
          exfalso
          have he : Bond.init solver (some cr) none (some mat) (some pr)
              (some p) terms ig = initDerive cr mat pr terms ig
                (cr * pr / terms) (pyInt (mat * terms)) y (some p) := by
            simp [Bond.init, if_neg hterms, hs]
          rw [he, initDerive] at h
          split_ifs at h <;> simp at h
    · exfalso
      have h' := (init_ytm_eq solver cr y mat pr terms ig po hterms).symm.trans h
      rw [initDerive] at h'
      split_ifs at h' <;> simp at h'

/-- Claim C3 amended, witness at `par = -1` for the
succeeds-under-violation part. -/
theorem spec_C3_amended_witness :
    (Bond.init newtonStub (some (9/100)) (some (9/100)) (some 1) (some (-1))
        none 2 (1/20)).map (fun _ => ()) = Except.ok () :=
  spec_C3_amended.1 newtonStub (9/100) (9/100) 1 (-1) 2 (1/20)
    (Or.inl (by norm_num)) (by norm_num) (by norm_num)
    (by rw [priceCalc_negPar]; norm_num)

/-- Claim C4: `set_ytm y` replaces the stored yield by `y` and recomputes
price, Macaulay duration, modified duration, and convexity, so that all
four derived fields equal their defining formulas evaluated at `y`; every
other field of the model is left unchanged. -/
theorem spec_C4_set_ytm (b : Bond) (y : ℚ)
    (h1 : b.terms_per_year ≠ 0)
    (h2 : 1 + y / b.terms_per_year ≠ 0)
    (h3 : priceCalc b.coupon_payment b.terms_per_year b.total_periods b.par y
      ≠ 0) :
    b.set_ytm y = Except.ok
      { b with
        ytm_annual := y
        price := priceCalc b.coupon_payment b.terms_per_year b.total_periods
          b.par y
        macaulay_duration := macCalc b.coupon_payment b.terms_per_year
          b.total_periods b.maturity b.par y
          (priceCalc b.coupon_payment b.terms_per_year b.total_periods b.par y)
        modified_duration := modCalc b.terms_per_year y
          (macCalc b.coupon_payment b.terms_per_year b.total_periods b.maturity
            b.par y
            (priceCalc b.coupon_payment b.terms_per_year b.total_periods b.par y))
        convexity := convCalc b.coupon_payment b.terms_per_year b.total_periods
          b.par y
          (priceCalc b.coupon_payment b.terms_per_year b.total_periods b.par y) } := by
  rw [Bond.set_ytm, if_neg h1, if_neg h2, if_neg h3]

/-- Claim C4, witness: `set_ytm 0.07` on the concrete bond `parBond1`. -/
theorem spec_C4_set_ytm_witness :
    parBond1.set_ytm (7/100) = Except.ok
      { parBond1 with
        ytm_annual := 7/100
        price := priceCalc parBond1.coupon_payment parBond1.terms_per_year
          parBond1.total_periods parBond1.par (7/100)
        macaulay_duration := macCalc parBond1.coupon_payment
          parBond1.terms_per_year parBond1.total_periods parBond1.maturity
          parBond1.par (7/100)
          (priceCalc parBond1.coupon_payment parBond1.terms_per_year
            parBond1.total_periods parBond1.par (7/100))
        modified_duration := modCalc parBond1.terms_per_year (7/100)
          (macCalc parBond1.coupon_payment parBond1.terms_per_year
            parBond1.total_periods parBond1.maturity parBond1.par (7/100)
            (priceCalc parBond1.coupon_payment parBond1.terms_per_year
              parBond1.total_periods parBond1.par (7/100)))
        convexity := convCalc parBond1.coupon_payment parBond1.terms_per_year
          parBond1.total_periods parBond1.par (7/100)
          (priceCalc parBond1.coupon_payment parBond1.terms_per_year
            parBond1.total_periods parBond1.par (7/100)) } :=
  spec_C4_set_ytm parBond1 (7/100)
    (by show (2:ℚ) ≠ 0; norm_num)
    (by show (1:ℚ) + 7/100 / 2 ≠ 0; norm_num)
    (by
      show priceCalc (9/100 * 100 / 2) 2 (pyInt (1 * 2)) 100 (7/100) ≠ 0
      rw [pyInt_one_mul_two, priceCalc, pvCoupons,
        show ((2:ℤ).toNat) = 2 from rfl, Finset.sum_range_succ,
        Finset.sum_range_succ, Finset.sum_range_zero]
      norm_num)

/-- Claim C8: for every bond and every bump `bp`, `dv01 bp` returns the
price-from-yield formula evaluated at `ytm_annual + bp/10000` minus the
stored price, and the post-state is the unchanged bond: no stored field is
mutated. -/
theorem spec_C8_dv01 (b : Bond) (bp : ℚ)
    (h1 : b.terms_per_year ≠ 0)
    (h2 : ¬(1 + (b.ytm_annual + bp / 10000) / b.terms_per_year = 0 ∧
      b.total_periods ≠ 0)) :
    b.dv01 bp = Except.ok
      (priceCalc b.coupon_payment b.terms_per_year b.total_periods b.par
        (b.ytm_annual + bp / 10000) - b.price, b) := by
  rw [Bond.dv01, if_neg h1, if_neg h2]
  rfl

/-- Claim C8, witness: `dv01 1` on the concrete bond `parBond1`. -/
theorem spec_C8_dv01_witness :
    parBond1.dv01 1 = Except.ok
      (priceCalc parBond1.coupon_payment parBond1.terms_per_year
        parBond1.total_periods parBond1.par (parBond1.ytm_annual + 1 / 10000)
        - parBond1.price, parBond1) :=
  spec_C8_dv01 parBond1 1 (by show (2:ℚ) ≠ 0; norm_num)
    (by
      show ¬((1 : ℚ) + (9/100 + 1 / 10000) / 2 = 0 ∧ pyInt (1 * 2) ≠ 0)
      rw [pyInt_one_mul_two]
      norm_num)

/-- Claim C5: a bond constructed from a yield equal to its annual coupon
rate, with positive par, maturity and periods per year (and a nonzero
per-period discount factor, without which construction raises), has
computed price exactly equal to par. -/
theorem spec_C5_par_bond (solver : (ℚ → ℚ) → ℚ → Except PyError ℚ)
    (cr mat pr terms ig : ℚ) (hpr : 0 < pr) (hmat : 0 < mat)
    (hterms : 0 < terms) (hx : 1 + cr / terms ≠ 0) :
    (Bond.init solver (some cr) (some cr) (some mat) (some pr) none terms
        ig).map Bond.price = Except.ok pr := by
  have hterms' : terms ≠ 0 := ne_of_gt hterms
  have hn : (0 : ℤ) ≤ pyInt (mat * terms) :=
    pyInt_nonneg _ (le_of_lt (mul_pos hmat hterms))
  have hprice : priceCalc (cr * pr / terms) terms (pyInt (mat * terms)) pr cr
      = pr := by
    rw [priceCalc, pvCoupons,
      show ((1 + cr / terms : ℚ)) ^ (pyInt (mat * terms))
          = (1 + cr / terms) ^ (pyInt (mat * terms)).toNat by
        rw [← zpow_natCast, Int.toNat_of_nonneg hn],
      show cr * pr / terms = (cr / terms) * pr by ring]
    exact couponGeom (cr / terms) pr hx (pyInt (mat * terms)).toNat
  rw [init_ytm_eq solver cr cr mat pr terms ig none hterms',
    initDerive_ok cr mat pr terms ig (cr * pr / terms) (pyInt (mat * terms)) cr
      none hx (by rw [Option.getD_none, hprice]; exact ne_of_gt hpr)]
  show Except.ok (Option.getD none (priceCalc (cr * pr / terms) terms
    (pyInt (mat * terms)) pr cr)) = Except.ok pr
  rw [Option.getD_none, hprice]

/-- Claim C5, witness: coupon 9 percent, yield 9 percent, 1 year, par 100. -/
theorem spec_C5_par_bond_witness :
    (Bond.init newtonStub (some (9/100)) (some (9/100)) (some 1) (some 100)
        none 2 (1/20)).map Bond.price = Except.ok 100 :=
  spec_C5_par_bond newtonStub (9/100) 1 100 2 (1/20) (by norm_num)
    (by norm_num) (by norm_num) (by norm_num)

/-- Claim C6: a zero-coupon bond constructed from any yield with positive
per-period discount factor (and positive par) has Macaulay duration
exactly equal to its maturity. -/
theorem spec_C6_zero_coupon (solver : (ℚ → ℚ) → ℚ → Except PyError ℚ)
    (y mat pr terms ig : ℚ) (hpr : 0 < pr) (hterms : terms ≠ 0)
    (hx : 0 < 1 + y / terms) :
    (Bond.init solver (some 0) (some y) (some mat) (some pr) none terms
        ig).map Bond.macaulay_duration = Except.ok mat := by
  have hxne : 1 + y / terms ≠ 0 := ne_of_gt hx
  have hzp : (0 : ℚ) < (1 + y / terms) ^ (pyInt (mat * terms)) := zpow_pos hx _
  have hprice : priceCalc (0 * pr / terms) terms (pyInt (mat * terms)) pr y
      = pr / (1 + y / terms) ^ (pyInt (mat * terms)) := by
    rw [priceCalc, pvCoupons]
    simp
  have hpos : priceCalc (0 * pr / terms) terms (pyInt (mat * terms)) pr y ≠ 0 := by
    rw [hprice]
    exact ne_of_gt (div_pos hpr hzp)
  have hmac : macCalc (0 * pr / terms) terms (pyInt (mat * terms)) mat pr y
      (priceCalc (0 * pr / terms) terms (pyInt (mat * terms)) pr y) = mat := by
    rw [macCalc, hprice]
    have hsum : (∑ i in Finset.range (pyInt (mat * terms)).toNat,
        (((i : ℚ) + 1) / terms) * (0 * pr / terms) / (1 + y / terms) ^ (i + 1))
        = 0 := by
      apply Finset.sum_eq_zero
      intro i _
      rw [show ((i : ℚ) + 1) / terms * (0 * pr / terms) = 0 by ring]
      exact zero_div _
    rw [hsum, zero_add, div_div_div_cancel_right₀ (ne_of_gt hzp)]
    exact mul_div_cancel_right₀ mat (ne_of_gt hpr)
  rw [init_ytm_eq solver 0 y mat pr terms ig none hterms,
    initDerive_ok 0 mat pr terms ig (0 * pr / terms) (pyInt (mat * terms)) y
      none hxne (by rw [Option.getD_none]; exact hpos)]
  show Except.ok (macCalc (0 * pr / terms) terms (pyInt (mat * terms)) mat pr y
    (Option.getD none (priceCalc (0 * pr / terms) terms (pyInt (mat * terms))
      pr y))) = Except.ok mat
  rw [Option.getD_none, hmac]

/-- Claim C6, witness: zero coupon, yield 9 percent, 5 years, par 100. -/
theorem spec_C6_zero_coupon_witness :
    (Bond.init newtonStub (some 0) (some (9/100)) (some 5) (some 100)
        none 2 (1/20)).map Bond.macaulay_duration = Except.ok 5 :=
  spec_C6_zero_coupon newtonStub (9/100) 5 100 2 (1/20) (by norm_num)
    (by norm_num) (by norm_num)

/-- Claim C10: when `maturity * periods_per_year < 1` (positive maturity
and periods per year), `total_periods` is 0, the coupon sum is empty, the
computed price equals par (the redemption is undiscounted) for every
yield, the Macaulay duration equals maturity, and construction succeeds
(given the nonzero per-period factor and par without which any
construction raises). -/
theorem spec_C10_short_maturity (solver : (ℚ → ℚ) → ℚ → Except PyError ℚ)
    (cr y mat pr terms ig : ℚ) (hmat : 0 < mat) (hterms : 0 < terms)
    (hsmall : mat * terms < 1) (hpr : 0 < pr) (hx : 1 + y / terms ≠ 0) :
    (Bond.init solver (some cr) (some y) (some mat) (some pr) none terms
        ig).map (fun b => (b.total_periods, b.price, b.macaulay_duration))
      = Except.ok (0, pr, mat) := by
  have hn : pyInt (mat * terms) = 0 :=
    pyInt_eq_zero _ (le_of_lt (mul_pos hmat hterms)) hsmall
  have hprice : priceCalc (cr * pr / terms) terms (pyInt (mat * terms)) pr y
      = pr := by
    rw [hn, priceCalc, pvCoupons]
    simp
  have hmac : macCalc (cr * pr / terms) terms (pyInt (mat * terms)) mat pr y
      (priceCalc (cr * pr / terms) terms (pyInt (mat * terms)) pr y) = mat := by
    rw [hprice, hn, macCalc]
    simp only [Int.toNat_zero, Finset.range_zero, Finset.sum_empty, zero_add,
      zpow_zero, div_one]
    exact mul_div_cancel_right₀ mat (ne_of_gt hpr)
  rw [init_ytm_eq solver cr y mat pr terms ig none (ne_of_gt hterms),
    initDerive_ok cr mat pr terms ig (cr * pr / terms) (pyInt (mat * terms)) y
      none hx (by rw [Option.getD_none, hprice]; exact ne_of_gt hpr)]
  show Except.ok ((pyInt (mat * terms)),
      Option.getD none (priceCalc (cr * pr / terms) terms (pyInt (mat * terms))
        pr y),
      macCalc (cr * pr / terms) terms (pyInt (mat * terms)) mat pr y
        (Option.getD none (priceCalc (cr * pr / terms) terms
          (pyInt (mat * terms)) pr y)))
    = Except.ok ((0 : ℤ), pr, mat)
  rw [Option.getD_none, hmac, hprice, hn]

/-- Claim C10, witness: maturity of a quarter year, semiannual periods. -/
theorem spec_C10_short_maturity_witness :
    (Bond.init newtonStub (some (9/100)) (some (9/100)) (some (1/4))
        (some 100) none 2 (1/20)).map
      (fun b => (b.total_periods, b.price, b.macaulay_duration))
      = Except.ok (0, 100, 1/4) :=
  spec_C10_short_maturity newtonStub (9/100) (9/100) (1/4) 100 2 (1/20)
    (by norm_num) (by norm_num) (by norm_num) (by norm_num) (by norm_num)

/-- Claim C9: construction fails with the missing-required-fields
`ConfigurationError` (`ValueError`) when any of coupon_rate, par, maturity
is absent; fails with the missing-driver `ConfigurationError` when both
yield and price are absent; and succeeds when the three required fields
and at least one of yield/price are supplied with valid values (nonzero
periods per year and per-period factor, nonzero stored price, and — on the
price-only path — a solver run that converges). -/
theorem spec_C9_construction :
    (∀ (solver : (ℚ → ℚ) → ℚ → Except PyError ℚ)
        (cro ytmo mato pro po : Option ℚ) (terms ig : ℚ),
        (cro = none ∨ pro = none ∨ mato = none) →
        Bond.init solver cro ytmo mato pro po terms ig = Except.error
          (PyError.valueError
            "coupon_rate, par, and maturity must be provided.")) ∧
    (∀ (solver : (ℚ → ℚ) → ℚ → Except PyError ℚ) (cr mat pr terms ig : ℚ),
        terms ≠ 0 →
        Bond.init solver (some cr) none (some mat) (some pr) none terms ig
          = Except.error
            (PyError.valueError ("Either ytm or price must be provided."))) ∧
    (∀ (solver : (ℚ → ℚ) → ℚ → Except PyError ℚ) (cr y mat pr terms ig : ℚ)
        (po : Option ℚ), terms ≠ 0 → 1 + y / terms ≠ 0 →
        po.getD (priceCalc (cr * pr / terms) terms (pyInt (mat * terms)) pr y)
          ≠ 0 →
        Bond.init solver (some cr) (some y) (some mat) (some pr) po terms ig
          = Except.ok (mkBond cr mat pr terms ig (cr * pr / terms)
              (pyInt (mat * terms)) y po)) ∧
    (∀ (solver : (ℚ → ℚ) → ℚ → Except PyError ℚ) (cr y mat pr p terms ig : ℚ),
        terms ≠ 0 →
        solver (ytmEquation (cr * pr / terms) terms (pyInt (mat * terms)) pr p)
          ig = Except.ok y →
        1 + y / terms ≠ 0 → p ≠ 0 →
        Bond.init solver (some cr) none (some mat) (some pr) (some p) terms ig
          = Except.ok (mkBond cr mat pr terms ig (cr * pr / terms)
              (pyInt (mat * terms)) y (some p))) := by
  refine ⟨?_, ?_, ?_, ?_⟩
  · intro solver cro ytmo mato pro po terms ig h
    rcases cro with _ | cr <;> rcases pro with _ | pr <;> rcases mato with _ | mat <;>
      simp_all [Bond.init]
  · intro solver cr mat pr terms ig hterms
    simp [Bond.init, if_neg hterms]
  · intro solver cr y mat pr terms ig po hterms hx hp
    rw [init_ytm_eq solver cr y mat pr terms ig po hterms,
      initDerive_ok cr mat pr terms ig (cr * pr / terms) (pyInt (mat * terms))
        y po hx hp]
  · intro solver cr y mat pr p terms ig hterms hsolve hx hp
    rw [Bond.init, if_neg hterms]
    show (match solver (ytmEquation (cr * pr / terms) terms
        (pyInt (mat * terms)) pr p) ig with
      | Except.error e => Except.error e
      | Except.ok y => initDerive cr mat pr terms ig (cr * pr / terms)
          (pyInt (mat * terms)) y (some p)) = _
    rw [hsolve]
    exact initDerive_ok cr mat pr terms ig (cr * pr / terms)
      (pyInt (mat * terms)) y (some p) hx
      (by rw [Option.getD_some]; exact hp)

/-- Claim C9, witness: the yield-supplied success case at the input of
`parBond1`. -/
theorem spec_C9_construction_witness :
    Bond.init newtonStub (some (9/100)) (some (9/100)) (some 1) (some 100)
        none 2 (1/20)
      = Except.ok (mkBond (9/100) 1 100 2 (1/20) (9/100 * 100 / 2)
          (pyInt (1 * 2)) (9/100) none) :=
  spec_C9_construction.2.2.1 newtonStub (9/100) (9/100) 1 100 2 (1/20) none
    (by norm_num) (by norm_num)
    (by rw [Option.getD_none, priceCalc_parBond1]; norm_num)

/-- A larger yield gives a larger per-period factor when the period count
is positive. -/
lemma factor_lt (terms y1 y2 : ℚ) (hterms : 0 < terms) (h : y1 < y2) :
    1 + y1 / terms < 1 + y2 / terms := by
  have := div_lt_div_of_pos_right h hterms
  linarith

/-- Strict antitonicity of the price-from-yield formula in the yield, for
a bond with at least one coupon period, nonnegative coupon payment,
positive par, and positive per-period discount factors. -/
lemma priceCalc_strict_anti (cp terms : ℚ) (n : ℤ) (par y1 y2 : ℚ)
    (hterms : 0 < terms) (hn : 1 ≤ n) (hcp : 0 ≤ cp) (hpar : 0 < par)
    (hx1 : 0 < 1 + y1 / terms) (hy : y1 < y2) :
    priceCalc cp terms n par y2 < priceCalc cp terms n par y1 := by
  have hx12 : 1 + y1 / terms < 1 + y2 / terms := factor_lt terms y1 y2 hterms hy
  rw [priceCalc, priceCalc, pvCoupons, pvCoupons]
  have hnn : (0 : ℤ) ≤ n := le_trans zero_le_one hn
  have e1 : ((1 + y1 / terms : ℚ)) ^ n = (1 + y1 / terms) ^ n.toNat := by
    rw [← zpow_natCast, Int.toNat_of_nonneg hnn]
  have e2 : ((1 + y2 / terms : ℚ)) ^ n = (1 + y2 / terms) ^ n.toNat := by
    rw [← zpow_natCast, Int.toNat_of_nonneg hnn]
  rw [e1, e2]
  have hsum : (∑ i in Finset.range n.toNat, cp / (1 + y2 / terms) ^ (i + 1))
      ≤ ∑ i in Finset.range n.toNat, cp / (1 + y1 / terms) ^ (i + 1) := by
    apply Finset.sum_le_sum
    intro i _
    have hp1 : (0 : ℚ) < (1 + y1 / terms) ^ (i + 1) := pow_pos hx1 _
    have hple : ((1 + y1 / terms : ℚ)) ^ (i + 1) ≤ (1 + y2 / terms) ^ (i + 1) :=
      pow_le_pow_left₀ (le_of_lt hx1) (le_of_lt hx12) _
    calc cp / (1 + y2 / terms) ^ (i + 1)
        = cp * (1 / (1 + y2 / terms) ^ (i + 1)) := by ring
      _ ≤ cp * (1 / (1 + y1 / terms) ^ (i + 1)) :=
          mul_le_mul_of_nonneg_left (one_div_le_one_div_of_le hp1 hple) hcp
      _ = cp / (1 + y1 / terms) ^ (i + 1) := by ring
  have hk : n.toNat ≠ 0 := by omega
  have hplt : ((1 + y1 / terms : ℚ)) ^ n.toNat < (1 + y2 / terms) ^ n.toNat :=
    pow_lt_pow_left₀ hx12 (le_of_lt hx1) hk
  exact add_lt_add_of_le_of_lt hsum
    (div_lt_div_of_pos_left hpar (pow_pos hx1 _) hplt)

/-- Evaluation: `dv01 1` on the notebook bond `q2B` succeeds and returns
the reprice at the bumped yield minus the stored price 100. -/
lemma q2B_dv01_eq :
    q2B.dv01 1 = Except.ok
      (priceCalc (9/100 * 100 / 2) 2 (pyInt (2 * 2)) 100 (2/25 + 1/10000)
        - 100, q2B) := by
  rw [Bond.dv01,
    if_neg (show ¬(q2B.terms_per_year = 0) by show ¬((2:ℚ) = 0); norm_num),
    if_neg (show ¬(1 + (q2B.ytm_annual + 1 / 10000) / q2B.terms_per_year = 0 ∧
        q2B.total_periods ≠ 0) by
      show ¬((1:ℚ) + (2/25 + 1 / 10000) / 2 = 0 ∧ pyInt (2 * 2) ≠ 0)
      rw [pyInt_two_mul_two]
      norm_num)]
  rfl

/-- Evaluation: repricing `q2B` at its stored yield bumped up by one basis
point gives more than the stored price 100 (because the stored price is
the verbatim explicit price, below the formula price at 8 percent). -/
lemma q2B_bumped_price_gt :
    (100 : ℚ) < priceCalc (9/100 * 100 / 2) 2 (pyInt (2 * 2)) 100
      (2/25 + 1/10000) := by
  rw [pyInt_two_mul_two, priceCalc, pvCoupons, show ((4:ℤ).toNat) = 4 from rfl,
    Finset.sum_range_succ, Finset.sum_range_succ, Finset.sum_range_succ,
    Finset.sum_range_succ, Finset.sum_range_zero]
  norm_num

/-- Claim C7, counterexample.  The notebook's `Bond(0.09, 0.08, 2, 100,
100)` has positive cash flows and a positive bumped discount factor, yet
`dv01 1` is positive, not negative: the claim fails for a constructed bond
whose stored price was supplied explicitly. -/
theorem spec_C7_counterexample :
    Bond.init newtonStub (some (9/100)) (some (2/25)) (some 2) (some 100)
        (some 100) 2 (1/20) = Except.ok q2B ∧
      0 < q2B.coupon_payment ∧ 0 < q2B.par ∧
      0 < 1 + (q2B.ytm_annual + 1 / 10000) / q2B.terms_per_year ∧
      0 < dv01Val q2B 1 := by
  refine ⟨q2B_init, ?_, ?_, ?_, ?_⟩
  · show (0:ℚ) < 9/100 * 100 / 2
    norm_num
  · show (0:ℚ) < 100
    norm_num
  · show (0:ℚ) < 1 + (2/25 + 1 / 10000) / 2
    norm_num
  · unfold dv01Val
    rw [q2B_dv01_eq]
    show 0 < priceCalc (9/100 * 100 / 2) 2 (pyInt (2 * 2)) 100
      (2/25 + 1/10000) - 100
    linarith [q2B_bumped_price_gt]

/-- Claim C7, amended: for a bond whose stored price equals the
price-from-yield formula at its stored yield (as after yield-driven
construction or `set_ytm`), with positive periods per year, at least one
coupon period, nonnegative coupon payment, positive par, and positive
current and bumped per-period discount factors, `dv01 bp` is negative for
every `bp > 0` and positive for every `bp < 0`. -/
theorem spec_C7_amended (b : Bond) (bp : ℚ)
    (hterms : 0 < b.terms_per_year) (hn : 1 ≤ b.total_periods)
    (hcp : 0 ≤ b.coupon_payment) (hpar : 0 < b.par)
    (hcons : b.price = b.calculate_price_from_ytm b.ytm_annual)
    (hx : 0 < 1 + b.ytm_annual / b.terms_per_year)
    (hx' : 0 < 1 + (b.ytm_annual + bp / 10000) / b.terms_per_year) :
    b.dv01 bp = Except.ok
      (b.calculate_price_from_ytm (b.ytm_annual + bp / 10000) - b.price, b) ∧
    (0 < bp →
      b.calculate_price_from_ytm (b.ytm_annual + bp / 10000) - b.price < 0) ∧
    (bp < 0 →
      0 < b.calculate_price_from_ytm (b.ytm_annual + bp / 10000) - b.price) := by
  have hterms' : b.terms_per_year ≠ 0 := ne_of_gt hterms
  have h2 : ¬(1 + (b.ytm_annual + bp / 10000) / b.terms_per_year = 0 ∧
      b.total_periods ≠ 0) := by
    intro hcon
    exact (ne_of_gt hx') hcon.1
  refine ⟨?_, ?_, ?_⟩
  · rw [Bond.dv01, if_neg hterms', if_neg h2]
  · intro hbp
    have hlt : b.ytm_annual < b.ytm_annual + bp / 10000 := by
      have : (0:ℚ) < bp / 10000 := div_pos hbp (by norm_num)
      linarith
    have hanti := priceCalc_strict_anti b.coupon_payment b.terms_per_year
      b.total_periods b.par b.ytm_annual (b.ytm_annual + bp / 10000)
      hterms hn hcp hpar hx hlt
    rw [hcons]
    simp only [Bond.calculate_price_from_ytm]
    linarith
  · intro hbp
    have hlt : b.ytm_annual + bp / 10000 < b.ytm_annual := by
      have : bp / 10000 < (0:ℚ) := div_neg_of_neg_of_pos hbp (by norm_num)
      linarith
    have hanti := priceCalc_strict_anti b.coupon_payment b.terms_per_year
      b.total_periods b.par (b.ytm_annual + bp / 10000) b.ytm_annual
      hterms hn hcp hpar hx' hlt
    rw [hcons]
    simp only [Bond.calculate_price_from_ytm]
    linarith

/-- Claim C7 amended, witness at the consistent par bond `parBond1` with a
one-basis-point bump. -/
theorem spec_C7_amended_witness :
    parBond1.dv01 1 = Except.ok
      (parBond1.calculate_price_from_ytm (parBond1.ytm_annual + 1 / 10000)
        - parBond1.price, parBond1) ∧
    ((0:ℚ) < 1 →
      parBond1.calculate_price_from_ytm (parBond1.ytm_annual + 1 / 10000)
        - parBond1.price < 0) ∧
    ((1:ℚ) < 0 →
      0 < parBond1.calculate_price_from_ytm (parBond1.ytm_annual + 1 / 10000)
        - parBond1.price) :=
  spec_C7_amended parBond1 1
    (show (0:ℚ) < 2 by norm_num)
    (show (1:ℤ) ≤ pyInt (1 * 2) by rw [pyInt_one_mul_two]; norm_num)
    (show (0:ℚ) ≤ 9/100 * 100 / 2 by norm_num)
    (show (0:ℚ) < 100 by norm_num)
    rfl
    (show (0:ℚ) < 1 + (9/100) / 2 by norm_num)
    (show (0:ℚ) < 1 + (9/100 + 1 / 10000) / 2 by norm_num)
